import Mathlib

/-!
Shallow embedding of the IREE Python runtime function-invocation marshaling
layer (`bindings/python/iree/runtime/function.py`) together with theorems
settling the specification claims about it.

Modelling conventions:
* Python numeric scalars are `Int` (integers) and `Rat` (floats; rounding of
  a value into a narrower floating dtype is abstracted to the identity on the
  rational value — no claim below depends on rounding).
* Python/JSON data reachable from reflection metadata is the inductive `JVal`
  (`json.loads` output: strings, integers, null, arrays, objects).
* Exceptions are an explicit `PyErr` sum threaded through `Except`.
* The native `VmVariantList` container (from the compiled `binding` module,
  which is not part of the Python source set) is modelled as a list of
  `VmValue`s plus a flag saying whether formatting (`str()`) of the native
  object fails, since the source guards such formatting with a bare
  `try/except`.
* Recursive encode/decode dispatch uses explicit fuel; fuel exhaustion is
  modelled as Python's `RecursionError`.
-/

/-- HAL element types, from the `DTYPE_TO_HAL_ELEMENT_TYPE` table. -/
inductive HalElementType where
  | FLOAT_32 | FLOAT_64 | FLOAT_16
  | SINT_32 | SINT_64 | SINT_16 | SINT_8
  | UINT_32 | UINT_64 | UINT_16 | UINT_8
  | BOOL_8
deriving DecidableEq, Repr

/-- The numpy dtypes that occur in the marshaling layer's tables, plus
`complex64` as a representative host dtype with no HAL element type. -/
inductive NpDtype where
  | float32 | float64 | float16
  | int32 | int64 | int16 | int8
  | uint32 | uint64 | uint16 | uint8
  | bool_
  | complex64
deriving DecidableEq, Repr

/-- A scalar element stored in a numpy array. -/
inductive NpScalar where
  | intV (n : Int)
  | floatV (q : Rat)
  | boolV (b : Bool)
  | complexV (re im : Rat)
deriving DecidableEq, Repr

/-- A numpy ndarray (or numpy scalar, when `shape = []`): dtype, shape and
row-major element data. -/
structure NdArray where
  dtype : NpDtype
  shape : List Nat
  data : List NpScalar
deriving DecidableEq, Repr

/-- A parsed JSON value, as produced by `json.loads` on the reflection
metadata (also used for Python `None`, which is JSON `null`). -/
inductive JVal where
  | str (s : String)
  | int (n : Int)
  | null
  | arr (xs : List JVal)
  | obj (kvs : List (String × JVal))
deriving Repr

/-- Python truthiness of a `JVal` (empty string/list/object and `None`/`0`
are falsy). -/
def JVal.truthy : JVal → Bool
  | .str s => s ≠ ""
  | .int n => n ≠ 0
  | .null => false
  | .arr xs => !xs.isEmpty
  | .obj kvs => !kvs.isEmpty

/-- Python subscripting `v[i]` for a non-negative index, returning `none`
where Python would raise (`IndexError` on out-of-range, `TypeError` on a
non-subscriptable value). Indexing a string yields its one-character
substring. -/
def JVal.getIdx : JVal → Nat → Option JVal
  | .arr xs, i => xs.get? i
  | .str s, i => (s.toList.get? i).map (fun c => JVal.str (String.mk [c]))
  | _, _ => none

/-- Python exceptions distinguished by the marshaling layer. -/
inductive PyErr where
  /-- `ArgumentError(ValueError)` raised by the argument encoder. -/
  | argumentError (msg : String)
  /-- `ReturnError(ValueError)` raised by the result decoder. -/
  | returnError (msg : String)
  /-- Built-in `RuntimeError`, raised for malformed reflection metadata. -/
  | runtimeError (msg : String)
  /-- Built-in `KeyError` (missing mapping key). -/
  | keyError
  /-- Built-in `TypeError` (bad subscript / unhashable key). -/
  | typeError
  /-- Built-in `IndexError`. -/
  | indexError
  /-- Built-in `ValueError` from a failed tuple unpacking. -/
  | valueError
  /-- `json.JSONDecodeError` from `json.loads`. -/
  | jsonDecodeError
  /-- An exception escaping a user object's `__repr__`. -/
  | reprError
  /-- Built-in `RecursionError`; models exhaustion of the explicit fuel of
  the recursive encoder/decoder. -/
  | recursionError
  /-- `MetadataError`: a dedicated metadata-failure class named by the
  specification's error taxonomy. No such class exists in the source; the
  constructor exists only so that the spec's statement can be compared
  against what the code actually raises. -/
  | metadataError (msg : String)
deriving DecidableEq, Repr

/-- Is this a `RuntimeError`? -/
def PyErr.isRuntimeError : PyErr → Bool
  | .runtimeError _ => true
  | _ => false

/-- Is this an `ArgumentError`? -/
def PyErr.isArgumentError : PyErr → Bool
  | .argumentError _ => true
  | _ => false

/-- Is this a `ReturnError`? -/
def PyErr.isReturnError : PyErr → Bool
  | .returnError _ => true
  | _ => false

/-- The monad of Python computations that may raise. -/
abbrev PyM := Except PyErr

/-- Did the computation finish without raising? -/
def PyM.ok? {ε α : Type} : Except ε α → Bool
  | .ok _ => true
  | .error _ => false

/-- A JSON source text, abstracting the string handed to `json.loads`:
either syntactically invalid, or denoting a parsed JSON value. -/
inductive JsonText where
  | invalid (raw : String)
  | valid (v : JVal)

/-- Model of `json.loads` (Python standard library, outside this source
set): fails with `json.JSONDecodeError` on invalid syntax, otherwise
returns the parsed value. -/
def json_loads : JsonText → PyM JVal
  | .invalid _ => .error .jsonDecodeError
  | .valid v => .ok v

/-- A Python value handled by the encoder/decoder. -/
inductive PyValue where
  | bool (b : Bool)
  | int (n : Int)
  | float (q : Rat)
  | str (s : String)
  | list (xs : List PyValue)
  | tuple (xs : List PyValue)
  | dict (kvs : List (String × PyValue))
  | ndarray (a : NdArray)
  /-- An object that is not an `np.ndarray` but is convertible to one via
  `np.asarray` (duck-typed array-like). -/
  | arrayLike (a : NdArray)
  /-- The `MissingArgument` placeholder singleton. -/
  | missingArg
  /-- The Python `None` object. -/
  | pyNone
  /-- A host object with no registered converter; `reprBad` says whether
  its `__repr__` raises. -/
  | userObj (reprBad : Bool)

/-- Is this value a Python `tuple`? -/
def PyValue.isTuple : PyValue → Bool
  | .tuple _ => true
  | _ => false

/-- Is this value a Python `list`? -/
def PyValue.isList : PyValue → Bool
  | .list _ => true
  | _ => false

/-- A value held in a VM variant list. -/
inductive VmValue where
  | int (n : Int)
  | float (q : Rat)
  | list (xs : List VmValue)
  | bufferView (device : Nat) (a : NdArray) (et : HalElementType)

/-- Model of the native `VmVariantList` container (compiled `binding`
module, not part of the Python source set). `reprFails` models whether
`str()` of the native object raises internally, which the source guards
against with a bare `try/except` when summarizing return errors. -/
structure VmVariantList where
  items : List VmValue
  reprFails : Bool := false

/-- `VmVariantList(capacity)`: a fresh empty list. -/
def VmVariantList.new : VmVariantList := { items := [] }

/-- Append one value (`push_int` / `push_float` / `push_list` /
`push_buffer_view` all reduce to this in the model). -/
def VmVariantList.push (l : VmVariantList) (v : VmValue) : VmVariantList :=
  { l with items := l.items ++ [v] }

/-- `len()` of the list. -/
def VmVariantList.length (l : VmVariantList) : Nat := l.items.length

/-- Bit width and signedness of the integer numpy dtypes. -/
def NpDtype.intBits : NpDtype → Option (Nat × Bool)
  | .int8 => some (8, true)
  | .int16 => some (16, true)
  | .int32 => some (32, true)
  | .int64 => some (64, true)
  | .uint8 => some (8, false)
  | .uint16 => some (16, false)
  | .uint32 => some (32, false)
  | .uint64 => some (64, false)
  | _ => none

/-- Wrap an integer into a fixed-width (un)signed machine integer, as numpy
does when casting. -/
def wrapInt (bits : Nat) (signed : Bool) (n : Int) : Int :=
  let m : Int := 2 ^ bits
  let r := n % m
  if signed && decide (m / 2 ≤ r) then r - m else r

/-- Truncation of a rational toward zero (numpy float→int cast). -/
def ratTrunc (q : Rat) : Int :=
  if 0 ≤ q then ⌊q⌋ else ⌈q⌉

/-- The numeric value of a scalar as a rational (complex values contribute
their real part, as in numpy's narrowing casts). -/
def NpScalar.ratValue : NpScalar → Rat
  | .intV n => (n : Rat)
  | .floatV q => q
  | .boolV b => if b then 1 else 0
  | .complexV re _ => re

/-- numpy scalar cast into a target dtype. Integer targets wrap modulo the
width; float targets keep the rational value (rounding abstracted away);
`bool_` tests non-zero; `complex64` keeps real/imaginary parts. -/
def castScalar (d : NpDtype) (s : NpScalar) : NpScalar :=
  match d.intBits with
  | some (bits, signed) =>
    let n := match s with
      | .intV n => n
      | .boolV b => if b then 1 else 0
      | v => ratTrunc v.ratValue
    .intV (wrapInt bits signed n)
  | none =>
    match d with
    | .bool_ => .boolV (decide (s.ratValue ≠ 0) || (match s with | .complexV _ im => decide (im ≠ 0) | _ => false))
    | .complex64 => match s with
      | .complexV re im => .complexV re im
      | v => .complexV v.ratValue 0
    | _ => .floatV s.ratValue

/-- `ndarray.astype(dtype)`: a fresh array with every element cast; the
receiver is untouched. -/
def NdArray.astype (a : NdArray) (d : NpDtype) : NdArray :=
  { dtype := d, shape := a.shape, data := a.data.map (castScalar d) }

/-- The `ABI_TYPE_TO_DTYPE` table mapping ABI element-type tags to numpy
dtypes. -/
def ABI_TYPE_TO_DTYPE (s : String) : Option NpDtype :=
  if s = "f32" then some .float32
  else if s = "i32" then some .int32
  else if s = "i64" then some .int64
  else if s = "f64" then some .float64
  else if s = "i16" then some .int16
  else if s = "i8" then some .int8
  else if s = "i1" then some .bool_
  else none

/-- The `DTYPE_TO_HAL_ELEMENT_TYPE` linear table. -/
def DTYPE_TO_HAL_ELEMENT_TYPE : List (NpDtype × HalElementType) :=
  [(.float32, .FLOAT_32), (.float64, .FLOAT_64), (.float16, .FLOAT_16),
   (.int32, .SINT_32), (.int64, .SINT_64), (.int16, .SINT_16), (.int8, .SINT_8),
   (.uint32, .UINT_32), (.uint64, .UINT_64), (.uint16, .UINT_16), (.uint8, .UINT_8),
   (.bool_, .BOOL_8)]

/-- The `for ... break ... else` scan of `DTYPE_TO_HAL_ELEMENT_TYPE`:
first matching entry, if any. -/
def lookupHalElementType (d : NpDtype) : Option HalElementType :=
  (DTYPE_TO_HAL_ELEMENT_TYPE.find? (fun p => p.1 == d)).map (fun p => p.2)

/-- The per-call error-context tracker (`Invocation` in the source):
the device plus the four fields captured for error messages. -/
structure Invocation where
  device : Nat
  current_arg : Option PyValue := none
  current_desc : JVal := .null
  current_return_list : Option VmVariantList := none
  current_return_index : Nat := 0

/-- Fresh context for one call (`Invocation(device)`). -/
def Invocation.new (device : Nat) : Invocation := { device := device }

/-- Printable name of a numpy dtype. -/
def NpDtype.name : NpDtype → String
  | .float32 => "float32"
  | .float64 => "float64"
  | .float16 => "float16"
  | .int32 => "int32"
  | .int64 => "int64"
  | .int16 => "int16"
  | .int8 => "int8"
  | .uint32 => "uint32"
  | .uint64 => "uint64"
  | .uint16 => "uint16"
  | .uint8 => "uint8"
  | .bool_ => "bool"
  | .complex64 => "complex64"

/-- Comma-join for rendering sequences. -/
def joinComma : List String → String
  | [] => ""
  | [s] => s
  | s :: rest => s ++ ", " ++ joinComma rest

mutual
/-- Python `repr` of a parsed-JSON value (quotes rendered as `\x27`). -/
def jvalStr : JVal → String
  | .str s => "\x27" ++ s ++ "\x27"
  | .int n => toString n
  | .null => "None"
  | .arr xs => "[" ++ jvalStrList xs ++ "]"
  | .obj kvs => "\x7b" ++ jvalStrKVs kvs ++ "\x7d"

/-- Comma-joined `repr`s of a JSON array's elements. -/
def jvalStrList : List JVal → String
  | [] => ""
  | [x] => jvalStr x
  | x :: xs => jvalStr x ++ ", " ++ jvalStrList xs

/-- Comma-joined `repr`s of a JSON object's items. -/
def jvalStrKVs : List (String × JVal) → String
  | [] => ""
  | [(k, v)] => "\x27" ++ k ++ "\x27: " ++ jvalStr v
  | (k, v) :: xs => "\x27" ++ k ++ "\x27: " ++ jvalStr v ++ ", " ++ jvalStrKVs xs
end

/-- Python `str()` conversion used by f-string interpolation: strings are
rendered without quotes, everything else as its `repr`. -/
def jvalFStr : JVal → String
  | .str s => s
  | v => jvalStr v

/-- `f"ndarray({shape}, {dtype})"`: the short form used for ndarray
arguments when summarizing. -/
def ndarrayShortRepr (a : NdArray) : String :=
  "ndarray((" ++ joinComma (a.shape.map toString) ++ "), " ++ a.dtype.name ++ ")"

/-- `repr` of one array element. -/
def npScalarStr : NpScalar → String
  | .intV n => toString n
  | .floatV q => toString q
  | .boolV b => if b then "True" else "False"
  | .complexV re im => "(" ++ toString re ++ "+" ++ toString im ++ "j)"

mutual
/-- Python `repr` of a host value; raises when a user object's `__repr__`
raises (there is no converter-side guard around `repr`). -/
def pyRepr : PyValue → PyM String
  | .bool b => pure (if b then "True" else "False")
  | .int n => pure (toString n)
  | .float q => pure (toString q)
  | .str s => pure ("\x27" ++ s ++ "\x27")
  | .list xs => do pure ("[" ++ (← pyReprList xs) ++ "]")
  | .tuple xs => do pure ("(" ++ (← pyReprList xs) ++ ")")
  | .dict kvs => do pure ("\x7b" ++ (← pyReprKVs kvs) ++ "\x7d")
  | .ndarray a => pure ("array(" ++ joinComma (a.data.map npScalarStr) ++ ")")
  | .arrayLike _ => pure "<array-like object>"
  | .missingArg => pure "<mising argument>"
  | .pyNone => pure "None"
  | .userObj reprBad => if reprBad then throw .reprError else pure "<object>"

/-- Comma-joined `repr`s of a sequence's elements. -/
def pyReprList : List PyValue → PyM String
  | [] => pure ""
  | [x] => pyRepr x
  | x :: xs => do pure ((← pyRepr x) ++ ", " ++ (← pyReprList xs))

/-- Comma-joined `repr`s of a mapping's items. -/
def pyReprKVs : List (String × PyValue) → PyM String
  | [] => pure ""
  | [(k, v)] => do pure ("\x27" ++ k ++ "\x27: " ++ (← pyRepr v))
  | (k, v) :: xs => do
    pure ("\x27" ++ k ++ "\x27: " ++ (← pyRepr v) ++ ", " ++ (← pyReprKVs xs))
end

/-- Rendering of one VM value for diagnostics. -/
def vmValueStr : VmValue → String
  | .int n => toString n
  | .float q => toString q
  | .list _ => "<list>"
  | .bufferView _ _ _ => "<buffer view>"

/-- `str()` of the native variant list; fails when the native formatting
fails (`reprFails`). -/
def vmListStrE (l : VmVariantList) : PyM String :=
  if l.reprFails then throw .reprError
  else pure ("<VmVariantList(" ++ joinComma (l.items.map vmValueStr) ++ ")>")

/-- `Invocation.summarize_arg_error`: NOTE — unlike the return-side
summarizer there is no `try/except` here, so a raising `repr` propagates. -/
def Invocation.summarize_arg_error (inv : Invocation) : PyM String := do
  match inv.current_arg with
  | none => return ""
  | some arg =>
    let current_arg_repr ←
      (match arg with
       | .ndarray a => pure (ndarrayShortRepr a)
       | _ => pyRepr arg)
    return "\x27" ++ current_arg_repr ++ "\x27 with description " ++ jvalFStr inv.current_desc

/-- `Invocation.summarize_return_error`: the native-list formatting is
wrapped in a bare `try/except` substituting a placeholder. -/
def Invocation.summarize_return_error (inv : Invocation) : PyM String := do
  match inv.current_return_list with
  | none => return ""
  | some l =>
    let vm_repr :=
      match vmListStrE l with
      | .ok s => toString inv.current_return_index ++ "@" ++ s
      | .error _ => "<error printing list item>"
    return vm_repr ++ " with description " ++ jvalFStr inv.current_desc

/-- `_raise_argument_error`: builds the `ArgumentError`; summarization runs
first, so a raising argument `repr` escapes as-is. -/
def raise_argument_error {α : Type} (inv : Invocation) (summary : String) : PyM α := do
  let s ← inv.summarize_arg_error
  throw (.argumentError ("Error passing argument: " ++ summary ++
    " (while encoding argument " ++ s ++ ")"))

/-- `_raise_return_error`: builds the `ReturnError`. -/
def raise_return_error {α : Type} (inv : Invocation) (summary : String) : PyM α := do
  let s ← inv.summarize_return_error
  throw (.returnError ("Error processing function return: " ++ summary ++
    " (while decoding return " ++ s ++ ")"))

/-- Python subscripting that raises instead of returning `none`
(`IndexError` out of range, `TypeError` on a non-subscriptable value). -/
def pySubscriptIdx (v : JVal) (i : Nat) : PyM JVal :=
  match v with
  | .arr xs =>
    match xs.get? i with
    | some x => pure x
    | none => throw .indexError
  | .str s =>
    match s.toList.get? i with
    | some c => pure (.str (String.mk [c]))
    | none => throw .indexError
  | _ => throw .typeError

/-- Python slicing `desc[n:]` for the descriptor sequences. Only array
descriptors reach the call sites (the tag comparisons on `desc[0]` rule
out strings first), so other shapes yield `[]`. -/
def descSlice (desc : JVal) (n : Nat) : List JVal :=
  match desc with
  | .arr xs => xs.drop n
  | _ => []

/-- Python class name of a value, for error messages. -/
def pyClassName : PyValue → String
  | .bool _ => "<class bool>"
  | .int _ => "<class int>"
  | .float _ => "<class float>"
  | .str _ => "<class str>"
  | .list _ => "<class list>"
  | .tuple _ => "<class tuple>"
  | .dict _ => "<class dict>"
  | .ndarray _ => "<class numpy.ndarray>"
  | .arrayLike _ => "<class array-like>"
  | .missingArg => "<class _MissingArgument>"
  | .pyNone => "<class NoneType>"
  | .userObj _ => "<class object>"

/-- Is this the `MissingArgument` placeholder? -/
def PyValue.isMissingArg : PyValue → Bool
  | .missingArg => true
  | _ => false

/-- The truthiness-guarded head subscript shared by the source's tag
tests (`desc and desc[0] == ...`): a falsy value short-circuits the
conjunction, so the subscript is never evaluated (`none`); a truthy value
evaluates `desc[0]`, whose failure propagates uncaught — `TypeError` for
an integer, `KeyError` for an object (JSON object keys are strings, so
the integer key misses). A truthy list or string is non-empty, so its
index 0 always exists. -/
def headSubscript (d : JVal) : PyM (Option JVal) :=
  if d.truthy then
    match d with
    | .arr xs =>
      match xs.get? 0 with
      | some x => pure (some x)
      | none => throw .indexError
    | .str s =>
      match s.toList.get? 0 with
      | some c => pure (some (.str (String.mk [c])))
      | none => throw .indexError
    | .obj _ => throw .keyError
    | _ => throw .typeError
  else
    pure none

/-- `_is_ndarray_descriptor`: `desc and desc[0] == "ndarray"`; the
subscript of a truthy non-sequence raises. -/
def is_ndarray_descriptor (desc : JVal) : PyM Bool := do
  let h ← headSubscript desc
  pure (match h with
    | some (.str s) => s == "ndarray"
    | _ => false)

/-- `_is_0d_ndarray_descriptor` (example: `["ndarray", "f32", 0]`):
`desc and desc[0] == "ndarray" and desc[2] == 0`; `desc[2]` is evaluated
only when the head matched (then `desc` is a list, and a too-short list
raises `IndexError`). -/
def is_0d_ndarray_descriptor (desc : JVal) : PyM Bool := do
  let h ← headSubscript desc
  match h with
  | some (.str s) =>
    if s == "ndarray" then do
      let d2 ← pySubscriptIdx desc 2
      pure (match d2 with
        | .int n => n == 0
        | _ => false)
    else
      pure false
  | _ => pure false

/-- Shared body of the `ABI_TYPE_TO_DTYPE[dtype_str]` lookup guarded by
`except KeyError`: a string key misses with the "unrecognized dtype"
`ArgumentError`; an unhashable key (list/object) raises `TypeError`
before the lookup; any other hashable key also misses. -/
def lookupAbiDtype (inv : Invocation) (dtype_str : JVal) : PyM NpDtype :=
  match dtype_str with
  | .str s =>
    match ABI_TYPE_TO_DTYPE s with
    | some d => pure d
    | none => raise_argument_error inv ("unrecognized dtype " ++ s)
  | .arr _ => throw .typeError
  | .obj _ => throw .typeError
  | other => raise_argument_error inv ("unrecognized dtype " ++ jvalFStr other)

/-- `_cast_scalar_to_ndarray`: cast a Python scalar to the descriptor's
element type, producing a numpy scalar (a rank-0 array in the model). -/
def cast_scalar_to_ndarray (inv : Invocation) (x : NpScalar) (desc : JVal) : PyM NdArray := do
  let dtype_str ← pySubscriptIdx desc 1
  let dtype ← lookupAbiDtype inv dtype_str
  pure { dtype := dtype, shape := [], data := [castScalar dtype x] }

/-- Python shape tuple rendering, for the shape-mismatch message. -/
def shapeStr (shape : List Nat) : String :=
  "(" ++ joinComma (shape.map toString) ++ ")"

/-- Rendering of the declared-dims part of the shape-mismatch message. -/
def declaredDimsStr (dims : List JVal) : String :=
  "(" ++ joinComma (dims.map jvalStr) ++ ")"

/-- The per-dimension validation loop of `_ndarray_to_vm`: a declared
dimension of `None` accepts any actual size; any other declared entry must
equal the actual size (a non-integer entry never does). -/
def dimsMismatch (shape : List JVal) (ndarray_shape : List Nat) : Bool :=
  (shape.zip ndarray_shape).any (fun p =>
    match p.1 with
    | .null => false
    | .int d => d != (p.2 : Int)
    | _ => true)

/-- `_ndarray_to_vm`: validate (and implicitly cast) an ndarray against an
`ndarray` descriptor, then push it as a device buffer view. -/
def ndarray_to_vm (inv : Invocation) (t : VmVariantList) (x : NdArray) (desc : JVal) :
    PyM VmVariantList := do
  let x ←
    match desc with
    | .null => pure x
    | _ => do
      let desc_type ← pySubscriptIdx desc 0
      if !(match desc_type with | .str s => s == "ndarray" | _ => false) then
        raise_argument_error inv ("passed an ndarray but expected " ++ jvalFStr desc_type)
      let dtype_str ← pySubscriptIdx desc 1
      let dtype ← lookupAbiDtype inv dtype_str
      let x := if dtype != x.dtype then x.astype dtype else x
      let rank ← pySubscriptIdx desc 2
      let shape := descSlice desc 3
      let ndarray_shape := x.shape
      if shape.length != ndarray_shape.length
          || !(match rank with | .int r => r == (ndarray_shape.length : Int) | _ => false) then
        raise_argument_error inv
          ("rank mismatch " ++ toString ndarray_shape.length ++ " vs " ++ toString shape.length)
      if dimsMismatch shape ndarray_shape then
        raise_argument_error inv
          ("shape mismatch " ++ shapeStr ndarray_shape ++ " vs " ++ declaredDimsStr shape)
      pure x
  match lookupHalElementType x.dtype with
  | some element_type => pure (t.push (.bufferView inv.device x element_type))
  | none => raise_argument_error inv ("unsupported numpy dtype " ++ x.dtype.name)

/-- Model of `np.asarray` for the value shapes the claims exercise:
identity on arrays and array-likes; Python scalars become numpy scalars
of the default dtype. Exotic promotions (nested sequences, object dtype)
are out of the model and raise. -/
def np_asarray (x : PyValue) : PyM NdArray :=
  match x with
  | .ndarray a => pure a
  | .arrayLike a => pure a
  | .int n => pure { dtype := .int64, shape := [], data := [.intV (wrapInt 64 true n)] }
  | .float q => pure { dtype := .float64, shape := [], data := [.floatV q] }
  | .bool b => pure { dtype := .bool_, shape := [], data := [.boolV b] }
  | _ => throw .typeError

/-- `_ndarray_like_to_vm`: duck-typed conversion then `_ndarray_to_vm`. -/
def ndarray_like_to_vm (inv : Invocation) (t : VmVariantList) (x : PyValue) (desc : JVal) :
    PyM VmVariantList := do
  let a ← np_asarray x
  ndarray_to_vm inv t a desc

/-- `_int_to_vm`: implicit promotion to a 0d tensor when the descriptor is
a rank-0 ndarray, otherwise a plain VM int slot. -/
def int_to_vm (inv : Invocation) (t : VmVariantList) (x : Int) (desc : JVal) :
    PyM VmVariantList := do
  let promote ← if desc.truthy then is_0d_ndarray_descriptor desc else pure false
  if promote then
    let casted ← cast_scalar_to_ndarray inv (.intV x) desc
    ndarray_to_vm inv t casted desc
  else
    pure (t.push (.int x))

/-- `_float_to_vm`: symmetric with `_int_to_vm`. -/
def float_to_vm (inv : Invocation) (t : VmVariantList) (x : Rat) (desc : JVal) :
    PyM VmVariantList := do
  let promote ← if desc.truthy then is_0d_ndarray_descriptor desc else pure false
  if promote then
    let casted ← cast_scalar_to_ndarray inv (.floatV x) desc
    ndarray_to_vm inv t casted desc
  else
    pure (t.push (.float x))

/-- `_bool_to_vm`: `int(x)` then `_int_to_vm`. -/
def bool_to_vm (inv : Invocation) (t : VmVariantList) (x : Bool) (desc : JVal) :
    PyM VmVariantList :=
  int_to_vm inv t (if x then 1 else 0) desc

/-- `_str_to_vm`: unconditionally unsupported. -/
def str_to_vm (inv : Invocation) (_t : VmVariantList) (_x : String) (_desc : JVal) :
    PyM VmVariantList :=
  raise_argument_error inv "Python str arguments not yet supported"

/-- Python dict lookup `x[key]` over the modelled dict. -/
def pyDictGet (kvs : List (String × PyValue)) (k : String) : Option PyValue :=
  (kvs.find? (fun p => p.1 == k)).map (fun p => p.2)

/-- The collection loop of `_dict_to_vm`: for each `[key, value_desc]`
entry of the descriptor, look the key up in the Python dict (missing key
fails with `ArgumentError`), accumulating values and value descriptors.
Descriptor entries that do not unpack into exactly two parts raise
`ValueError`, string keys are required by the metadata grammar. -/
def dictCollect (inv : Invocation) (x : List (String × PyValue)) :
    List JVal → PyM (List PyValue × List JVal)
  | [] => pure ([], [])
  | sd :: rest => do
    match sd with
    | .arr [k, value_desc] => do
      let key ← (match k with
        | .str s => pure s
        | _ => throw .typeError)
      let v ← (match pyDictGet x key with
        | some v => pure v
        | none => raise_argument_error inv ("expected dict item with key " ++ key))
      let (vs, ds) ← dictCollect inv x rest
      pure (v :: vs, value_desc :: ds)
    | _ => throw .valueError

/-- One call frame of the recursive argument encoder. The source's
mutually recursive functions are combined into a single dispatcher that
recurses structurally on fuel; named wrappers below restore the source's
function boundaries. -/
inductive EncTask where
  /-- `_merge_python_sequence_to_vm`. -/
  | seq (inv : Invocation) (vm_list : VmVariantList) (py_list : List PyValue)
      (descs : Option (List JVal))
  /-- The `for py_value, desc in zip(...)` loop of the merge. -/
  | loop (inv : Invocation) (vm_list : VmVariantList) (pairs : List (PyValue × JVal))
  /-- `_list_or_tuple_to_vm`. -/
  | listTuple (inv : Invocation) (t : VmVariantList) (x : List PyValue) (desc : JVal)
  /-- `_dict_to_vm`. -/
  | dictTask (inv : Invocation) (t : VmVariantList) (x : List (String × PyValue)) (desc : JVal)

/-- The recursive argument encoder.

* `seq` (`_merge_python_sequence_to_vm`): arity handling, then the loop.
  NOTE (the heart of the arity bug): the guard compares `len(py_list)`
  with the count of non-placeholder values — not with `len(descs)` — so
  it can only fire when a `MissingArgument` placeholder is present; the
  subsequent `zip` silently truncates to the shorter sequence.
* `loop`: capture the error context, dispatch to a converter
  (`_ndarray_like_to_vm` whenever the descriptor is an ndarray
  descriptor, else by the value's Python type), re-wrap
  non-`ArgumentError` exceptions. The converters receive the context by
  reference in the source; the model threads the loop's own context,
  which coincides observably (the fields are re-set before every use).
* `listTuple` (`_list_or_tuple_to_vm`): fixed-arity recursive encode into
  a nested list pushed as one composite slot (the context component of
  the result is the caller's, unchanged).
* `dictTask` (`_dict_to_vm`): match keys in descriptor order, recursively
  encode the matched values, push as one composite slot. -/
def encodeStep : Nat → EncTask → PyM (Invocation × VmVariantList)
  | 0, _ => throw .recursionError
  | fuel + 1, .seq inv vm_list py_list descs => do
    let descs2 ←
      (match descs with
       | none => pure (List.replicate py_list.length JVal.null)
       | some ds => do
         let len_py_list := (py_list.filter (fun x => !x.isMissingArg)).length
         if py_list.length != len_py_list then do
           let inputRepr ← pyReprList py_list
           raise_argument_error inv
             ("mismatched call arity: expected " ++ toString ds.length ++
              " arguments but got " ++ toString len_py_list ++
              ". Expected signature=" ++ jvalStr (.arr ds) ++
              " for input=[" ++ inputRepr ++ "]")
         else
           pure ds
       : PyM (List JVal))
    encodeStep fuel (.loop inv vm_list (py_list.zip descs2))
  | fuel + 1, .loop inv vm_list pairs =>
    (match pairs with
     | [] => pure (inv, vm_list)
     | (py_value, desc) :: rest => do
       let inv := { inv with current_arg := some py_value, current_desc := desc }
       -- The descriptor test runs outside the converter try/except, so its
       -- failure propagates uncaught.
       let isNd ← is_ndarray_descriptor desc
       let attempt : PyM VmVariantList :=
         if isNd then
           ndarray_like_to_vm inv vm_list py_value desc
         else
           match py_value with
           | .bool b => bool_to_vm inv vm_list b desc
           | .int n => int_to_vm inv vm_list n desc
           | .float q => float_to_vm inv vm_list q desc
           | .list xs => (encodeStep fuel (.listTuple inv vm_list xs desc)).map (fun r => r.2)
           | .tuple xs => (encodeStep fuel (.listTuple inv vm_list xs desc)).map (fun r => r.2)
           | .dict kvs => (encodeStep fuel (.dictTask inv vm_list kvs desc)).map (fun r => r.2)
           | .str s => str_to_vm inv vm_list s desc
           | .ndarray a => ndarray_to_vm inv vm_list a desc
           | other =>
             raise_argument_error inv
               ("cannot map Python type to VM: " ++ pyClassName other ++
                " (for desc " ++ jvalFStr desc ++ ")")
       match attempt with
       | .ok vm_list2 => encodeStep fuel (.loop inv vm_list2 rest)
       | .error (.argumentError m) => throw (.argumentError m)
       | .error _ =>
         raise_argument_error inv "exception converting from Python type to VM")
  | fuel + 1, .listTuple inv t x desc => do
    let desc_type ← pySubscriptIdx desc 0
    if !(match desc_type with | .str s => s == "slist" || s == "stuple" | _ => false) then
      raise_argument_error inv ("passed a list or tuple but expected " ++ jvalFStr desc_type)
    let sub_descriptors := descSlice desc 1
    let arity := sub_descriptors.length
    if x.length != arity then
      raise_argument_error inv
        ("mismatched list/tuple arity: " ++ toString x.length ++ " vs " ++ toString arity)
    let r ← encodeStep fuel (.seq inv VmVariantList.new x (some sub_descriptors))
    pure (inv, t.push (.list r.2.items))
  | fuel + 1, .dictTask inv t x desc => do
    let desc_type ← pySubscriptIdx desc 0
    if !(match desc_type with | .str s => s == "sdict" | _ => false) then
      raise_argument_error inv ("passed a dict but expected " ++ jvalFStr desc_type)
    let sub_descriptors := descSlice desc 1
    let (py_values, value_descs) ← dictCollect inv x sub_descriptors
    let r ← encodeStep fuel (.seq inv VmVariantList.new py_values (some value_descs))
    pure (inv, t.push (.list r.2.items))

/-- `_merge_python_sequence_to_vm` (wrapper over the dispatcher). -/
def merge_python_sequence_to_vm (fuel : Nat) (inv : Invocation) (vm_list : VmVariantList)
    (py_list : List PyValue) (descs : Option (List JVal)) :
    PyM (Invocation × VmVariantList) :=
  encodeStep fuel (.seq inv vm_list py_list descs)

/-- `_list_or_tuple_to_vm` (wrapper over the dispatcher). -/
def list_or_tuple_to_vm (fuel : Nat) (inv : Invocation) (t : VmVariantList)
    (x : List PyValue) (desc : JVal) : PyM VmVariantList :=
  (encodeStep fuel (.listTuple inv t x desc)).map (fun r => r.2)

/-- `_dict_to_vm` (wrapper over the dispatcher). -/
def dict_to_vm (fuel : Nat) (inv : Invocation) (t : VmVariantList)
    (x : List (String × PyValue)) (desc : JVal) : PyM VmVariantList :=
  (encodeStep fuel (.dictTask inv t x desc)).map (fun r => r.2)

/-- The host view of one VM variant: ints and floats surface as Python
`int`/`float`; native container handles (nested lists, buffer views)
surface as host-opaque objects. -/
def variantToPy : VmValue → PyValue
  | .int n => .int n
  | .float q => .float q
  | .list _ => .userObj false
  | .bufferView _ _ _ => .userObj false

/-- `get_variant`: generic extraction of one slot as a host value. -/
def VmVariantList.get_variant (l : VmVariantList) (i : Nat) : PyM PyValue :=
  match l.items.get? i with
  | none => throw .indexError
  | some v => pure (variantToPy v)

/-- `get_as_list`: extraction of one slot as a nested variant list; the
native binding raises if the slot does not hold a list. -/
def VmVariantList.get_as_list (l : VmVariantList) (i : Nat) : PyM VmVariantList :=
  match l.items.get? i with
  | none => throw .indexError
  | some (.list xs) => pure { items := xs }
  | some _ => throw .typeError

/-- `get_as_ndarray`: extraction of one slot as a host array backed by the
buffer view; the native binding raises if the slot is not a buffer view. -/
def VmVariantList.get_as_ndarray (l : VmVariantList) (i : Nat) : PyM NdArray :=
  match l.items.get? i with
  | none => throw .indexError
  | some (.bufferView _ a _) => pure a
  | some _ => throw .typeError

/-- The `ABI_TYPE_TO_DTYPE` lookup on the decode side, where a miss is
reported through `_raise_return_error`. -/
def lookupAbiDtypeRet (inv : Invocation) (dtype_str : JVal) : PyM NpDtype :=
  match dtype_str with
  | .str s =>
    match ABI_TYPE_TO_DTYPE s with
    | some d => pure d
    | none => raise_return_error inv ("unrecognized dtype " ++ s)
  | .arr _ => throw .typeError
  | .obj _ => throw .typeError
  | other => raise_return_error inv ("unrecognized dtype " ++ jvalFStr other)

/-- `_vm_to_ndarray`: extract a buffer-view slot as an array and re-cast
it when its dtype differs from the declared element type. -/
def vm_to_ndarray (inv : Invocation) (vm_list : VmVariantList) (vm_index : Nat)
    (desc : JVal) : PyM PyValue := do
  let x ← vm_list.get_as_ndarray vm_index
  let dtype_str ← pySubscriptIdx desc 1
  let dtype ← lookupAbiDtypeRet inv dtype_str
  let x := if dtype != x.dtype then x.astype dtype else x
  pure (.ndarray x)

/-- The two `type_bound` arguments given to `_vm_to_scalar`. -/
inductive TypeBound where
  | int
  | float
deriving DecidableEq, Repr

/-- Rendering of the bound for the mismatch message. -/
def TypeBound.name : TypeBound → String
  | .int => "<class int>"
  | .float => "<class float>"

/-- Python `isinstance(value, type_bound)`; a Python `bool` is an
instance of `int`. -/
def pyIsInstance (v : PyValue) : TypeBound → Bool
  | .int =>
    match v with
    | .int _ => true
    | .bool _ => true
    | _ => false
  | .float =>
    match v with
    | .float _ => true
    | _ => false

/-- `_vm_to_scalar(type_bound)`: extract the generic variant and require
its host type to be in the bound's family; the mismatch `ReturnError` is
raised directly (not via `_raise_return_error`). -/
def vm_to_scalar (type_bound : TypeBound) (_inv : Invocation) (vm_list : VmVariantList)
    (vm_index : Nat) (_desc : JVal) : PyM PyValue := do
  let value ← vm_list.get_variant vm_index
  if !(pyIsInstance value type_bound) then
    throw (.returnError ("expected an " ++ type_bound.name ++ " value but got " ++
      pyClassName value))
  else
    pure value

/-- The unpack loop of `_vm_to_sdict`'s descriptor: each entry must be a
two-part `[key, value_desc]` pair (string keys per the metadata grammar). -/
def sdictDescSplit : List JVal → PyM (List String × List JVal)
  | [] => pure ([], [])
  | .arr [.str k, d] :: rest => do
    let (ks, ds) ← sdictDescSplit rest
    pure (k :: ks, d :: ds)
  | .arr [_, _] :: _ => throw .typeError
  | _ :: _ => throw .valueError

/-- Result of one decoder frame: a decoded sequence (for
`_extract_vm_sequence_to_python` and its loop) or a single decoded value
(for the composite converters). -/
inductive DecOut where
  | seqR (inv : Invocation) (items : List PyValue)
  | valR (v : PyValue)

/-- Project a decoder result as a single value. The sequence arm is never
produced by the converter tasks; the fallback only totalizes the match. -/
def DecOut.asVal : DecOut → PyM PyValue
  | .valR v => pure v
  | .seqR _ _ => throw .recursionError

/-- Project a decoder result as a sequence. The value arm is never
produced by the sequence tasks; the fallback only totalizes the match. -/
def DecOut.asSeq : DecOut → PyM (Invocation × List PyValue)
  | .seqR inv items => pure (inv, items)
  | .valR _ => throw .recursionError

/-- One call frame of the recursive result decoder (same fuel-structural
combination as the encoder). -/
inductive DecTask where
  /-- `_extract_vm_sequence_to_python`. -/
  | seq (inv : Invocation) (vm_list : VmVariantList) (descs : Option (List JVal))
  /-- The `for vm_index, desc in zip(range(...), descs)` loop. -/
  | loop (inv : Invocation) (vm_list : VmVariantList) (vm_index : Nat)
      (descs : List JVal) (acc : List PyValue)
  /-- `_vm_to_sdict`. -/
  | sdict (inv : Invocation) (vm_list : VmVariantList) (vm_index : Nat) (desc : JVal)
  /-- `_vm_to_slist`. -/
  | slist (inv : Invocation) (vm_list : VmVariantList) (vm_index : Nat) (desc : JVal)
  /-- `_vm_to_stuple`. -/
  | stuple (inv : Invocation) (vm_list : VmVariantList) (vm_index : Nat) (desc : JVal)
  /-- `_vm_to_pylist`. -/
  | pylist (inv : Invocation) (vm_list : VmVariantList) (vm_index : Nat) (desc : JVal)

/-- The recursive result decoder.

* `seq` (`_extract_vm_sequence_to_python`): strict arity check against
  the descriptors (dynamic mode assumes the actual arity), then the loop.
* `loop`: capture the return context, dispatch per descriptor tag
  (generic extraction when the descriptor is `None`), re-wrap
  non-`ReturnError` exceptions.
* `sdict` (`_vm_to_sdict`): decode a nested list slot against keyed
  sub-descriptors into a key→value mapping.
* `slist` (`_vm_to_slist`): decode a nested list slot against positional
  sub-descriptors; the result is a Python list.
* `stuple` (`_vm_to_stuple`): `tuple(_vm_to_slist(...))`.
* `pylist` (`_vm_to_pylist`): decode a nested list slot against the
  single element descriptor repeated once per actual element. -/
def decodeStep : Nat → DecTask → PyM DecOut
  | 0, _ => throw .recursionError
  | fuel + 1, .seq inv vm_list descs => do
    let vm_list_arity := vm_list.length
    let descs2 ←
      (match descs with
       | none => pure (List.replicate vm_list_arity JVal.null)
       | some ds =>
         if vm_list_arity != ds.length then
           raise_return_error inv
             ("mismatched return arity: " ++ toString vm_list_arity ++ " vs " ++
              toString ds.length)
         else
           pure ds
       : PyM (List JVal))
    decodeStep fuel (.loop inv vm_list 0 descs2 [])
  | fuel + 1, .loop inv vm_list vm_index descs acc =>
    (match descs with
     | [] => pure (.seqR inv acc)
     | desc :: rest => do
       let inv := { inv with
         current_return_list := some vm_list
         current_return_index := vm_index
         current_desc := desc }
       match desc with
       | .null => do
         -- Dynamic (non reflection mode).
         let converted ← vm_list.get_variant vm_index
         decodeStep fuel (.loop inv vm_list (vm_index + 1) rest (acc ++ [converted]))
       | _ => do
         -- vm_type = desc if isinstance(desc, str) else desc[0]
         let vm_type ←
           (match desc with
            | .str s => pure (JVal.str s)
            | .arr xs =>
              (match xs.get? 0 with
               | some h => pure h
               | none => throw .indexError)
            | .obj _ => throw .keyError
            | _ => throw .typeError : PyM JVal)
         let tag ←
           (match vm_type with
            | .str s => pure s
            | .arr _ => throw .typeError
            | .obj _ => throw .typeError
            | other =>
              raise_return_error inv ("cannot map VM type to Python: " ++ jvalFStr other)
            : PyM String)
         let attempt : PyM PyValue ←
           (if tag == "ndarray" then pure (vm_to_ndarray inv vm_list vm_index desc)
            else if tag == "sdict" then
              pure ((decodeStep fuel (.sdict inv vm_list vm_index desc)).bind DecOut.asVal)
            else if tag == "slist" then
              pure ((decodeStep fuel (.slist inv vm_list vm_index desc)).bind DecOut.asVal)
            else if tag == "stuple" then
              pure ((decodeStep fuel (.stuple inv vm_list vm_index desc)).bind DecOut.asVal)
            else if tag == "py_homogeneous_list" then
              pure ((decodeStep fuel (.pylist inv vm_list vm_index desc)).bind DecOut.asVal)
            else if tag == "i8" || tag == "i16" || tag == "i32" || tag == "i64" then
              pure (vm_to_scalar .int inv vm_list vm_index desc)
            else if tag == "f16" || tag == "f32" || tag == "f64" || tag == "bf16" then
              pure (vm_to_scalar .float inv vm_list vm_index desc)
            else
              raise_return_error inv ("cannot map VM type to Python: " ++ tag))
         match attempt with
         | .ok converted =>
           decodeStep fuel (.loop inv vm_list (vm_index + 1) rest (acc ++ [converted]))
         | .error (.returnError m) => throw (.returnError m)
         | .error _ =>
           raise_return_error inv "exception converting from VM type to Python")
  | fuel + 1, .sdict inv vm_list vm_index desc => do
    let sub_vm_list ← vm_list.get_as_list vm_index
    let (item_keys, item_descs) ← sdictDescSplit (descSlice desc 1)
    let r ← decodeStep fuel (.seq inv sub_vm_list (some item_descs))
    let py_items ← (r.asSeq).map (fun p => p.2)
    pure (.valR (.dict (item_keys.zip py_items)))
  | fuel + 1, .slist inv vm_list vm_index desc => do
    let sub_vm_list ← vm_list.get_as_list vm_index
    let item_descs := descSlice desc 1
    let r ← decodeStep fuel (.seq inv sub_vm_list (some item_descs))
    let py_items ← (r.asSeq).map (fun p => p.2)
    pure (.valR (.list py_items))
  | fuel + 1, .stuple inv vm_list vm_index desc => do
    let r ← decodeStep fuel (.slist inv vm_list vm_index desc)
    let v ← r.asVal
    match v with
    | .list xs => pure (.valR (.tuple xs))
    | other => pure (.valR other)
  | fuel + 1, .pylist inv vm_list vm_index desc => do
    let sub_vm_list ← vm_list.get_as_list vm_index
    let element_type_desc := descSlice desc 1
    let r ← decodeStep fuel (.seq inv sub_vm_list
      (some (List.flatten (List.replicate sub_vm_list.length element_type_desc))))
    let py_items ← (r.asSeq).map (fun p => p.2)
    pure (.valR (.list py_items))

/-- `_extract_vm_sequence_to_python` (wrapper over the dispatcher). -/
def extract_vm_sequence_to_python (fuel : Nat) (inv : Invocation) (vm_list : VmVariantList)
    (descs : Option (List JVal)) : PyM (Invocation × List PyValue) :=
  (decodeStep fuel (.seq inv vm_list descs)).bind DecOut.asSeq

/-- `_vm_to_slist` (wrapper over the dispatcher). -/
def vm_to_slist (fuel : Nat) (inv : Invocation) (vm_list : VmVariantList)
    (vm_index : Nat) (desc : JVal) : PyM PyValue :=
  (decodeStep fuel (.slist inv vm_list vm_index desc)).bind DecOut.asVal

/-- `_vm_to_stuple` (wrapper over the dispatcher). -/
def vm_to_stuple (fuel : Nat) (inv : Invocation) (vm_list : VmVariantList)
    (vm_index : Nat) (desc : JVal) : PyM PyValue :=
  (decodeStep fuel (.stuple inv vm_list vm_index desc)).bind DecOut.asVal

/-- `_vm_to_sdict` (wrapper over the dispatcher). -/
def vm_to_sdict (fuel : Nat) (inv : Invocation) (vm_list : VmVariantList)
    (vm_index : Nat) (desc : JVal) : PyM PyValue :=
  (decodeStep fuel (.sdict inv vm_list vm_index desc)).bind DecOut.asVal

/-- `_vm_to_pylist` (wrapper over the dispatcher). -/
def vm_to_pylist (fuel : Nat) (inv : Invocation) (vm_list : VmVariantList)
    (vm_index : Nat) (desc : JVal) : PyM PyValue :=
  (decodeStep fuel (.pylist inv vm_list vm_index desc)).bind DecOut.asVal

/-- Python mapping subscript `v[key]` with a string key: `KeyError` on a
missing key of an object, `TypeError` when the value is not a mapping
(list/str/int/null subscripted by a string). -/
def pySubscriptKey (v : JVal) (k : String) : PyM JVal :=
  match v with
  | .obj kvs =>
    match kvs.find? (fun p => p.1 == k) with
    | some p => pure p.2
    | none => throw .keyError
  | _ => throw .typeError

/-- Insert into a string-keyed mapping with Python dict semantics: an
existing key is overwritten in place, a new key appends. -/
def dictInsertNat (l : List (String × Nat)) (k : String) (v : Nat) : List (String × Nat) :=
  if l.any (fun p => p.1 == k) then
    l.map (fun p => if p.1 == k then (k, v) else p)
  else
    l ++ [(k, v)]

/-- The callable binding (`FunctionInvoker` slots that survive
construction). `none` descriptors mean dynamic mode. -/
structure FunctionInvoker where
  device : Nat
  abi_dict : Option JVal := none
  arg_descs : Option (List JVal) := none
  ret_descs : Option (List JVal) := none
  named_arg_indices : List (String × Nat) := []
  max_named_arg_index : Int := -1
  has_inlined_results : Bool := false

/-- The head-tag test of the named post-processing loop:
`maybe_named_desc and maybe_named_desc[0] == "named"`; the subscript of a
truthy non-sequence raises uncaught. -/
def isNamedRecord (d : JVal) : PyM Bool := do
  let h ← headSubscript d
  pure (match h with
    | some (.str s) => s == "named"
    | _ => false)

/-- The single-result head-tag test of the inlined-result detection:
`maybe_inlined and maybe_inlined[0] in ["slist", "stuple", "sdict"]`;
the subscript of a truthy non-sequence raises uncaught. -/
def isInlinedRecord (mi : JVal) : PyM Bool := do
  let h ← headSubscript mi
  pure (match h with
    | some (.str s) => s == "slist" || s == "stuple" || s == "sdict"
    | _ => false)

/-- The inlined-result detection of `_parse_abi_dict`: runs the head-tag
test on the single result descriptor exactly when there is one. -/
def detectInlinedResults (ret_descs : List JVal) : PyM Bool :=
  if ret_descs.length == 1 then
    match ret_descs.get? 0 with
    | some mi => isInlinedRecord mi
    | none => pure false
  else
    pure false

/-- The post-processing loop of `_parse_abi_dict` over the argument
descriptors: a top-level `["named", name, type]` record is replaced by its
type, recording name→position and tracking the maximum named position.
A named record whose tail does not unpack into exactly two parts raises
`ValueError`; names are strings per the metadata grammar. -/
def namedPostprocess : List JVal → Nat → List (String × Nat) → Int →
    PyM (List JVal × List (String × Nat) × Int)
  | [], _, named, maxIdx => pure ([], named, maxIdx)
  | d :: rest, i, named, maxIdx => do
    let isNamed ← isNamedRecord d
    if isNamed then
      match descSlice d 1 with
      | [nameJ, arg_type_desc] => do
        let name ← (match nameJ with
          | .str s => pure s
          | _ => throw .typeError : PyM String)
        let named' := dictInsertNat named name i
        let maxIdx' := if (i : Int) > maxIdx then (i : Int) else maxIdx
        let (ds, n2, m2) ← namedPostprocess rest (i + 1) named' maxIdx'
        pure (arg_type_desc :: ds, n2, m2)
      | _ => throw .valueError
    else do
      let (ds, n2, m2) ← namedPostprocess rest (i + 1) named maxIdx
      pure (d :: ds, n2, m2)

/-- `_parse_abi_dict` (together with the `FunctionInvoker.__init__`
defaults): absent metadata leaves the dynamic-mode defaults; invalid JSON
and missing/ill-typed `"a"`/`"r"` raise `RuntimeError`; then the named
post-processing and inlined-result detection run. -/
def parse_abi_dict (device : Nat) (reflection_abi : Option JsonText) : PyM FunctionInvoker := do
  match reflection_abi with
  | none =>
    -- It is valid to have no reflection data (pure dynamic dispatch).
    pure { device := device }
  | some abi_json => do
    let abi_dict ←
      match json_loads abi_json with
      | .error .jsonDecodeError =>
        throw (.runtimeError "Reflection metadata is not valid JSON")
      | .error e => throw e
      | .ok v => pure v
    let arg_descs_j ←
      match pySubscriptKey abi_dict "a" with
      | .error .keyError => throw (.runtimeError "Malformed function reflection metadata")
      | r => r
    let ret_descs_j ←
      match pySubscriptKey abi_dict "r" with
      | .error .keyError => throw (.runtimeError "Malformed function reflection metadata")
      | r => r
    let (arg_descs, ret_descs) ←
      (match arg_descs_j, ret_descs_j with
       | .arr as_, .arr rs => pure (as_, rs)
       | _, _ => throw (.runtimeError "Malformed function reflection metadata structure")
       : PyM (List JVal × List JVal))
    let (arg_descs', named, maxIdx) ← namedPostprocess arg_descs 0 [] (-1)
    let has_inlined ← detectInlinedResults ret_descs
    pure { device := device
           abi_dict := some abi_dict
           arg_descs := some arg_descs'
           ret_descs := some ret_descs
           named_arg_indices := named
           max_named_arg_index := maxIdx
           has_inlined_results := has_inlined }

/-- The keyword-assignment loop of `__call__`: each keyword is looked up in
the named-argument index (an unknown name raises `ArgumentError` at once)
and written into its positional slot of the local merged copy. -/
def kwAssignLoop (fi : FunctionInvoker) (args : List PyValue) :
    List (String × PyValue) → PyM (List PyValue)
  | [] => pure args
  | (kwarg_key, kwarg_value) :: rest =>
    match fi.named_arg_indices.find? (fun p => p.1 == kwarg_key) with
    | none => throw (.argumentError ("specified kwarg " ++ kwarg_key ++ " is unknown"))
    | some p => kwAssignLoop fi (args.set p.2 kwarg_value) rest

/-- The keyword-merge step of `__call__` (lines guarded by `if kwargs:`):
copy the positional sequence, pad with `MissingArgument` placeholders up to
the highest named position, then assign keyword values by position. -/
def mergeKeywordArgs (fi : FunctionInvoker) (args : List PyValue)
    (kwargs : List (String × PyValue)) : PyM (List PyValue) :=
  if kwargs.isEmpty then pure args
  else
    let len_delta : Int := fi.max_named_arg_index - (args.length : Int) + 1
    let args :=
      if len_delta > 0 then args ++ List.replicate len_delta.toNat PyValue.missingArg
      else args
    kwAssignLoop fi args kwargs

/-- `FunctionInvoker.__call__` with no tracer attached: merge keywords,
encode, invoke the external VM (a function parameter of the model), align
inlined results with reflection, decode, and reconcile the return arity. -/
def FunctionInvoker.call (fuel : Nat) (fi : FunctionInvoker)
    (vmInvoke : VmVariantList → VmVariantList) (args : List PyValue)
    (kwargs : List (String × PyValue)) : PyM PyValue := do
  let inv := Invocation.new fi.device
  let ret_descs := fi.ret_descs
  let args ← mergeKeywordArgs fi args kwargs
  let (inv, arg_list) ←
    merge_python_sequence_to_vm fuel inv VmVariantList.new args fi.arg_descs
  let ret_list := vmInvoke arg_list
  -- Un-inline the results to align with reflection, as needed.
  let reflection_aligned_ret_list :=
    if fi.has_inlined_results then VmVariantList.new.push (.list ret_list.items)
    else ret_list
  let (_, returns) ←
    extract_vm_sequence_to_python fuel inv reflection_aligned_ret_list ret_descs
  let return_arity := returns.length
  if return_arity == 1 then pure (returns.getD 0 .pyNone)
  else if return_arity == 0 then pure .pyNone
  else pure (.tuple returns)

/-- A heap of host array objects, for stating that encoding never mutates
a caller-supplied array: arguments are passed by reference (cell index)
and `astype` allocates a fresh cell. -/
structure NpHeap where
  cells : List NdArray

/-- Read a cell. -/
def NpHeap.get (h : NpHeap) (i : Nat) : Option NdArray := h.cells[i]?

/-- Allocate a fresh cell, returning the new heap and the new reference. -/
def NpHeap.alloc (h : NpHeap) (a : NdArray) : NpHeap × Nat :=
  ({ cells := h.cells ++ [a] }, h.cells.length)

/-- `_ndarray_to_vm` restated over the array heap: the argument array is a
reference; `x = x.astype(dtype)` allocates a fresh cell and rebinds the
local reference, leaving every existing cell untouched. Returns the final
heap, the extended VM list, and the reference that was pushed. -/
def ndarray_to_vm_st (inv : Invocation) (h : NpHeap) (t : VmVariantList) (xid : Nat)
    (desc : JVal) : PyM (NpHeap × VmVariantList × Nat) := do
  let x0 ← (match h.get xid with
    | some a => pure a
    | none => throw .typeError : PyM NdArray)
  let (h, xid, x) ←
    (match desc with
     | .null => pure (h, xid, x0)
     | _ => do
       let desc_type ← pySubscriptIdx desc 0
       if !(match desc_type with | .str s => s == "ndarray" | _ => false) then
         raise_argument_error inv ("passed an ndarray but expected " ++ jvalFStr desc_type)
       let dtype_str ← pySubscriptIdx desc 1
       let dtype ← lookupAbiDtype inv dtype_str
       let (h, xid, x) :=
         if dtype != x0.dtype then
           let out := h.alloc (x0.astype dtype)
           (out.1, out.2, x0.astype dtype)
         else (h, xid, x0)
       let rank ← pySubscriptIdx desc 2
       let shape := descSlice desc 3
       let ndarray_shape := x.shape
       if shape.length != ndarray_shape.length
           || !(match rank with | .int r => r == (ndarray_shape.length : Int) | _ => false) then
         raise_argument_error inv
           ("rank mismatch " ++ toString ndarray_shape.length ++ " vs " ++ toString shape.length)
       if dimsMismatch shape ndarray_shape then
         raise_argument_error inv
           ("shape mismatch " ++ shapeStr ndarray_shape ++ " vs " ++ declaredDimsStr shape)
       pure (h, xid, x)
     : PyM (NpHeap × Nat × NdArray))
  match lookupHalElementType x.dtype with
  | some element_type => pure (h, t.push (.bufferView inv.device x element_type), xid)
  | none => raise_argument_error inv ("unsupported numpy dtype " ++ x.dtype.name)

/-- `np.array(x, dtype=d)` on a Python scalar: the explicit rank-0 array
holding the value cast into the dtype. -/
def np0d (d : NpDtype) (s : NpScalar) : NdArray :=
  { dtype := d, shape := [], data := [castScalar d s] }

/-- Reflection metadata of a callable with no arguments whose single
result descriptor is `[["slist", "i32", "i32"]]`. -/
def slistAbi : JsonText :=
  .valid (.obj [("a", .arr []), ("r", .arr [.arr [.str "slist", .str "i32", .str "i32"]])])

/-- A caller-supplied rank-0 `int32` array, for the frame-effect witness. -/
def c10Arr : NdArray := { dtype := .int32, shape := [], data := [.intV 3] }

/-- A one-cell heap holding `c10Arr`. -/
def c10Heap : NpHeap := { cells := [c10Arr] }

/-- A rank-0 `f32` ndarray descriptor. -/
def c10Desc : JVal := .arr [.str "ndarray", .str "f32", .int 0]

/-- The heap after encoding `c10Arr` against `c10Desc`: the cast allocated
a fresh cell, the original cell is untouched. -/
def c10HeapOut : NpHeap := { cells := [c10Arr, c10Arr.astype .float32] }

/-- The VM list after encoding `c10Arr` against `c10Desc`. -/
def c10ListOut : VmVariantList :=
  VmVariantList.new.push (.bufferView 0 (c10Arr.astype .float32) .FLOAT_32)

/-- A context mid-call: an integer argument is being encoded and the
native result list's formatting fails. -/
def c8Inv : Invocation :=
  { device := 0, current_arg := some (.int 5), current_desc := .null,
    current_return_list := some { items := [], reprFails := true },
    current_return_index := 0 }

/-- A binding with named parameters `x` at position 0 and `y` at 1. -/
def c9Invoker : FunctionInvoker :=
  { device := 0, named_arg_indices := [("x", 0), ("y", 1)], max_named_arg_index := 1 }

/-- `Except.ok` is the unit of bind. -/
theorem pym_bind_ok {α β : Type} (a : α) (k : α → PyM β) :
    (Except.ok a >>= k : PyM β) = k a := rfl

/-- `Except.error` short-circuits bind. -/
theorem pym_bind_err {α β : Type} (e : PyErr) (k : α → PyM β) :
    (Except.error e >>= k : PyM β) = Except.error e := rfl

/-- `pure` in the Python monad is `Except.ok`. -/
theorem pym_pure_eq_ok {α : Type} (a : α) : (pure a : PyM α) = Except.ok a := rfl

/-- `_raise_argument_error` never returns normally, also when followed by
further statements. -/
theorem raise_argument_error_bind_not_ok {α β : Type} (inv : Invocation) (summary : String)
    (k : α → PyM β) (r : β) :
    ((raise_argument_error inv summary : PyM α) >>= k) ≠ .ok r := by
  unfold raise_argument_error
  cases hs : inv.summarize_arg_error <;>
    simp [hs, pym_bind_ok, pym_bind_err, bind_assoc, throw, throwThe, MonadExceptOf.throw]

/-- `_raise_argument_error` never returns normally. -/
theorem raise_argument_error_not_ok {α : Type} (inv : Invocation) (summary : String)
    (r : α) : (raise_argument_error inv summary : PyM α) ≠ .ok r := by
  unfold raise_argument_error
  cases hs : inv.summarize_arg_error <;>
    simp [hs, pym_bind_ok, pym_bind_err, throw, throwThe, MonadExceptOf.throw]

/-- When the current argument's summary formats cleanly,
`_raise_argument_error` produces exactly an `ArgumentError`. -/
theorem raise_argument_error_ok {α : Type} (inv : Invocation) (summary : String)
    (hs : PyM.ok? inv.summarize_arg_error = true) :
    ∃ m, (raise_argument_error inv summary : PyM α) = .error (.argumentError m) := by
  cases hsum : inv.summarize_arg_error with
  | ok s =>
    exact ⟨"Error passing argument: " ++ summary ++ " (while encoding argument " ++ s ++ ")",
      by unfold raise_argument_error; rw [hsum]; rfl⟩
  | error e => rw [hsum] at hs; simp [PyM.ok?] at hs

/-- Every dtype reachable from `ABI_TYPE_TO_DTYPE` has a HAL element type. -/
theorem abi_dtype_has_hal (dts : String) (ddt : NpDtype)
    (h : ABI_TYPE_TO_DTYPE dts = some ddt) :
    ∃ et, lookupHalElementType ddt = some et := by
  unfold ABI_TYPE_TO_DTYPE at h
  split_ifs at h <;> simp only [Option.some.injEq] at h <;> subst h <;> exact ⟨_, rfl⟩

/-- The keyword-assignment loop fails with the unknown-kwarg
`ArgumentError` whenever some keyword is absent from the named index, and
the error does not depend on the positional values. -/
theorem kwAssignLoop_unknown (fi : FunctionInvoker) :
    ∀ (kwargs : List (String × PyValue)),
    (∃ p ∈ kwargs, fi.named_arg_indices.find? (fun q => q.1 == p.1) = none) →
    ∃ m, (∀ args2, kwAssignLoop fi args2 kwargs = .error (.argumentError m)) := by
  intro kwargs
  induction kwargs with
  | nil => rintro ⟨p, hp, -⟩; exact absurd hp (List.not_mem_nil p)
  | cons kv rest ih =>
    rintro ⟨p, hp, hnone⟩
    cases hfind : fi.named_arg_indices.find? (fun q => q.1 == kv.1) with
    | none =>
      refine ⟨"specified kwarg " ++ kv.1 ++ " is unknown", fun args2 => ?_⟩
      simp only [kwAssignLoop, hfind]
      rfl
    | some q =>
      have hpr : p ∈ rest := by
        rcases List.mem_cons.mp hp with rfl | hr
        · rw [hfind] at hnone; exact absurd hnone (by simp)
        · exact hr
      obtain ⟨m, hm⟩ := ih ⟨p, hpr, hnone⟩
      refine ⟨m, fun args2 => ?_⟩
      simpa [kwAssignLoop, hfind] using hm (args2.set q.2 kv.2)

/-- C1: evaluation of the argument encoder at the failing input. With two
`i32` descriptors and three plain integer values, the claimed
`ArgumentError` ("always raises when the positional length differs from
the descriptor length") is not raised: the arity guard compares
`len(py_list)` with the non-placeholder count rather than with
`len(descs)`, so encoding succeeds and silently truncates the third value
(only the first two land in the VM list). -/
theorem C1_silent_arity_truncation_eval :
    merge_python_sequence_to_vm 9 (Invocation.new 0) VmVariantList.new
      [.int 1, .int 2, .int 3] (some [.str "i32", .str "i32"])
    = .ok ({ device := 0, current_arg := some (.int 2), current_desc := .str "i32",
             current_return_list := none, current_return_index := 0 },
           { items := [.int 1, .int 2], reprFails := false }) := rfl

/-- C2 counterexample: for the result descriptor sequence
`[["slist", "i32", "i32"]]` the invocation returns the Python list
`[1, 2]`, not a 2-tuple — refuting the claim's "returns a 2-tuple of
integers ... not a mutable list". -/
theorem C2_slist_list_not_tuple_counterexample :
    (do
      let fi ← parse_abi_dict 0 (some slistAbi)
      FunctionInvoker.call 9 fi (fun _ => { items := [.int 1, .int 2], reprFails := false }) [] [])
      = .ok (.list [.int 1, .int 2])
    ∧ PyValue.isTuple (.list [.int 1, .int 2]) = false := ⟨rfl, rfl⟩

/-- C2 (amended): for a callable whose result descriptor sequence is
exactly `[["slist", "i32", "i32"]]`, the inlined-results flag is set at
parse time, the raw result list is aligned with reflection before
decoding, and the invocation returns the two integers at top level as a
2-element Python list (not a 1-tuple containing a nested sequence; the
`slist` converter yields a list, not a tuple). -/
theorem C2_inlined_slist_returns_list (a b : Int) :
    ∃ fi, parse_abi_dict 0 (some slistAbi) = .ok fi ∧ fi.has_inlined_results = true ∧
      FunctionInvoker.call 9 fi (fun _ => { items := [.int a, .int b], reprFails := false }) [] []
        = .ok (.list [.int a, .int b]) := ⟨_, rfl, rfl, rfl⟩

/-- C4: calling with a keyword name absent from the named-argument index
always raises `ArgumentError`, and the error is independent of the VM,
the encoder fuel, and the positional values — so it precedes any argument
encoding and no partial merge is observable by the caller (the merge
works on a local copy of the positional sequence). -/
theorem C4_unknown_keyword_rejected (fi : FunctionInvoker)
    (kwargs : List (String × PyValue))
    (h : ∃ p ∈ kwargs, fi.named_arg_indices.find? (fun q => q.1 == p.1) = none) :
    ∃ m, ∀ (vmInvoke : VmVariantList → VmVariantList) (fuel : Nat) (args : List PyValue),
      FunctionInvoker.call fuel fi vmInvoke args kwargs = .error (.argumentError m) := by
  obtain ⟨m, hm⟩ := kwAssignLoop_unknown fi kwargs h
  have hne : kwargs ≠ [] := by
    rintro rfl; obtain ⟨p, hp, -⟩ := h; exact absurd hp (List.not_mem_nil p)
  refine ⟨m, fun vmInvoke fuel args => ?_⟩
  have hmerge : mergeKeywordArgs fi args kwargs = .error (.argumentError m) := by
    unfold mergeKeywordArgs
    rw [if_neg (by simpa [List.isEmpty_iff] using hne)]
    exact hm _
  simp only [FunctionInvoker.call, hmerge]
  rfl

/-- C4 witness: a binding with no named arguments called with `z=1`. -/
theorem C4_witness_unknown_kwarg :
    ∃ m, ∀ (vmInvoke : VmVariantList → VmVariantList) (fuel : Nat) (args : List PyValue),
      FunctionInvoker.call fuel { device := 0 } vmInvoke args [("z", .int 1)]
        = .error (.argumentError m) :=
  C4_unknown_keyword_rejected { device := 0 } [("z", .int 1)] ⟨("z", .int 1), by simp, rfl⟩

/-- C5: an integer or float argument against a rank-0 ndarray descriptor
with a recognized element type is cast to that type and encoded exactly
as the explicit rank-0 array holding the cast value would be, producing a
pushed buffer view — never the plain scalar slot. -/
theorem C5_scalar_rank0_promotion (inv : Invocation) (t : VmVariantList) (dts : String)
    (ddt : NpDtype) (n : Int) (q : Rat)
    (h : ABI_TYPE_TO_DTYPE dts = some ddt) :
    (int_to_vm inv t n (.arr [.str "ndarray", .str dts, .int 0])
        = ndarray_to_vm inv t (np0d ddt (.intV n)) (.arr [.str "ndarray", .str dts, .int 0]))
  ∧ (float_to_vm inv t q (.arr [.str "ndarray", .str dts, .int 0])
        = ndarray_to_vm inv t (np0d ddt (.floatV q)) (.arr [.str "ndarray", .str dts, .int 0]))
  ∧ (∃ et, lookupHalElementType ddt = some et
      ∧ int_to_vm inv t n (.arr [.str "ndarray", .str dts, .int 0])
          = .ok (t.push (.bufferView inv.device (np0d ddt (.intV n)) et))
      ∧ float_to_vm inv t q (.arr [.str "ndarray", .str dts, .int 0])
          = .ok (t.push (.bufferView inv.device (np0d ddt (.floatV q)) et))) := by
  obtain ⟨et, het⟩ := abi_dtype_has_hal dts ddt h
  refine ⟨?_, ?_, et, het, ?_, ?_⟩ <;>
    simp [int_to_vm, float_to_vm, cast_scalar_to_ndarray, lookupAbiDtype, h,
      ndarray_to_vm, np0d, pySubscriptIdx, descSlice, het, is_0d_ndarray_descriptor,
      JVal.truthy, JVal.getIdx, dimsMismatch, NdArray.astype] <;> rfl

/-- C5 witness: integer 5 against `["ndarray", "f32", 0]`. -/
theorem C5_witness_f32 :
    int_to_vm (Invocation.new 0) VmVariantList.new 5 (.arr [.str "ndarray", .str "f32", .int 0])
      = ndarray_to_vm (Invocation.new 0) VmVariantList.new (np0d .float32 (.intV 5))
          (.arr [.str "ndarray", .str "f32", .int 0]) :=
  (C5_scalar_rank0_promotion (Invocation.new 0) VmVariantList.new "f32" .float32 5 (1 / 2)
    rfl).1

/-- C6: decoding one result slot whose descriptor is any of i8/i16/i32/i64
returns the extracted variant whenever its host value is an integer (of
any width — no width validation), and raises `ReturnError` otherwise;
f16/f32/f64/bf16 behave symmetrically for host floats. -/
theorem C6_scalar_family_decode (fuel : Nat) (inv : Invocation) (v : VmValue) (rf : Bool)
    (kind : String) :
    ((kind = "i8" ∨ kind = "i16" ∨ kind = "i32" ∨ kind = "i64") →
       ((pyIsInstance (variantToPy v) .int = true →
          ∃ inv2, extract_vm_sequence_to_python (fuel + 3) inv
              { items := [v], reprFails := rf } (some [.str kind])
            = .ok (inv2, [variantToPy v]))
        ∧ (pyIsInstance (variantToPy v) .int = false →
          ∃ m, extract_vm_sequence_to_python (fuel + 3) inv
              { items := [v], reprFails := rf } (some [.str kind])
            = .error (.returnError m))))
  ∧ ((kind = "f16" ∨ kind = "f32" ∨ kind = "f64" ∨ kind = "bf16") →
       ((pyIsInstance (variantToPy v) .float = true →
          ∃ inv2, extract_vm_sequence_to_python (fuel + 3) inv
              { items := [v], reprFails := rf } (some [.str kind])
            = .ok (inv2, [variantToPy v]))
        ∧ (pyIsInstance (variantToPy v) .float = false →
          ∃ m, extract_vm_sequence_to_python (fuel + 3) inv
              { items := [v], reprFails := rf } (some [.str kind])
            = .error (.returnError m)))) := by
  constructor <;> intro hk <;> constructor <;> intro hv <;>
    rcases hk with rfl | rfl | rfl | rfl <;> cases v <;>
      first
        | exact ⟨_, rfl⟩
        | simp [pyIsInstance, variantToPy] at hv

/-- C6 witness: the `i8` slot accepts the out-of-width host integer 300. -/
theorem C6_witness_i8_wide_int :
    ∃ inv2, extract_vm_sequence_to_python 3 (Invocation.new 0)
        { items := [.int 300], reprFails := false } (some [.str "i8"])
      = .ok (inv2, [.int 300]) :=
  ((C6_scalar_family_decode 0 (Invocation.new 0) (.int 300) false "i8").1
    (Or.inl rfl)).1 rfl

/-- C7 counterexample: a host array whose dtype (`complex64`) has no entry
in the dtype-to-element-type table, encoded against an ndarray descriptor,
does NOT raise `ArgumentError`: it is first cast to the declared element
type, so encoding succeeds — refuting the claim's last clause. -/
theorem C7_unmapped_dtype_cast_counterexample :
    ndarray_to_vm (Invocation.new 0) VmVariantList.new
      { dtype := .complex64, shape := [1], data := [.complexV 1 2] }
      (.arr [.str "ndarray", .str "f32", .int 1, .null])
    = .ok (VmVariantList.new.push
        (.bufferView 0 { dtype := .float32, shape := [1], data := [.floatV 1] } .FLOAT_32)) :=
  rfl

/-- C7 (amended): when encoding an array against an ndarray descriptor
with a recognized element type: the value is cast to the declared element
type if its dtype differs (and then encoded exactly as the cast array);
`ArgumentError` is raised if the actual rank differs from the declared
rank, or if any concretely declared dimension differs from the actual
one; unbound (`null`) dimension entries accept any size; and with all
checks passing the array is pushed as a buffer view. A host dtype with no
entry in the dtype-to-element-type table does not raise here — the cast
removes it first; that table-miss `ArgumentError` can only fire with no
descriptor (dynamic mode), as the last conjunct shows. -/
theorem C7_ndarray_descriptor_validation (inv : Invocation) (t : VmVariantList) (a : NdArray)
    (dts : String) (ddt : NpDtype) (dims : List JVal)
    (h : ABI_TYPE_TO_DTYPE dts = some ddt)
    (hs : PyM.ok? inv.summarize_arg_error = true) :
    ((a.dtype ≠ ddt →
        ndarray_to_vm inv t a (.arr (.str "ndarray" :: .str dts :: .int dims.length :: dims))
          = ndarray_to_vm inv t (a.astype ddt)
              (.arr (.str "ndarray" :: .str dts :: .int dims.length :: dims)))
   ∧ (a.dtype = ddt → a.shape.length ≠ dims.length →
        ∃ m, ndarray_to_vm inv t a (.arr (.str "ndarray" :: .str dts :: .int dims.length :: dims))
          = .error (.argumentError m))
   ∧ (a.dtype = ddt → a.shape.length = dims.length → dimsMismatch dims a.shape = true →
        ∃ m, ndarray_to_vm inv t a (.arr (.str "ndarray" :: .str dts :: .int dims.length :: dims))
          = .error (.argumentError m))
   ∧ (a.dtype = ddt → a.shape.length = dims.length → dimsMismatch dims a.shape = false →
        ∃ et, lookupHalElementType ddt = some et ∧
          ndarray_to_vm inv t a (.arr (.str "ndarray" :: .str dts :: .int dims.length :: dims))
            = .ok (t.push (.bufferView inv.device a et)))
   ∧ (lookupHalElementType a.dtype = none →
        ∃ m, ndarray_to_vm inv t a JVal.null = .error (.argumentError m))) := by
  refine ⟨?_, ?_, ?_, ?_, ?_⟩
  · intro ha
    simp [ndarray_to_vm, pySubscriptIdx, lookupAbiDtype, h, Ne.symm ha, descSlice,
      NdArray.astype]
    try rfl
  · intro ha hb
    subst ha
    obtain ⟨m, hm⟩ := raise_argument_error_ok (α := PUnit) inv
      ("rank mismatch " ++ toString a.shape.length ++ " vs " ++ toString dims.length) hs
    refine ⟨m, ?_⟩
    simp [ndarray_to_vm, pySubscriptIdx, lookupAbiDtype, h, descSlice,
      bne_iff_ne, Ne.symm hb, hm]
    try rfl
  · intro ha hlen hmis
    subst ha
    obtain ⟨m, hm⟩ := raise_argument_error_ok (α := PUnit) inv
      ("shape mismatch " ++ shapeStr a.shape ++ " vs " ++ declaredDimsStr dims) hs
    refine ⟨m, ?_⟩
    simp [ndarray_to_vm, pySubscriptIdx, lookupAbiDtype, h, descSlice, hlen, hmis, hm]
    try rfl
  · intro ha hlen hmis
    subst ha
    obtain ⟨et, het⟩ := abi_dtype_has_hal dts a.dtype h
    refine ⟨et, het, ?_⟩
    simp [ndarray_to_vm, pySubscriptIdx, lookupAbiDtype, h, descSlice, hlen, hmis, het]
    try rfl
  · intro hnone
    obtain ⟨m, hm⟩ := raise_argument_error_ok (α := VmVariantList) inv
      ("unsupported numpy dtype " ++ a.dtype.name) hs
    refine ⟨m, ?_⟩
    simp [ndarray_to_vm, hnone, hm]
    try rfl

/-- C7 witness: a 2-element `f32` array against
`["ndarray", "f32", 1, null]` — matching dtype, matching rank, unbound
dimension — encodes as a buffer view. -/
theorem C7_witness_f32_unbound_dim :
    ∃ et, lookupHalElementType .float32 = some et ∧
      ndarray_to_vm (Invocation.new 0) VmVariantList.new
        { dtype := .float32, shape := [2], data := [.floatV 1, .floatV 2] }
        (.arr [.str "ndarray", .str "f32", .int 1, .null])
      = .ok (VmVariantList.new.push
          (.bufferView 0 { dtype := .float32, shape := [2], data := [.floatV 1, .floatV 2] } et)) :=
  (C7_ndarray_descriptor_validation (Invocation.new 0) VmVariantList.new
    { dtype := .float32, shape := [2], data := [.floatV 1, .floatV 2] }
    "f32" .float32 [JVal.null] rfl rfl).2.2.2.1 rfl rfl rfl

/-- C8 counterexample: `summarize_arg_error` has no `try/except`, so when
the current argument's `repr` raises, the summarizer raises too —
refuting "the summarizing operations never raise for every state of the
context". -/
theorem C8_arg_summarizer_raises_counterexample :
    Invocation.summarize_arg_error
      { device := 0, current_arg := some (.userObj true), current_desc := .null,
        current_return_list := none, current_return_index := 0 }
      = .error .reprError := rfl

/-- C8 (amended): `summarize_return_error` never raises for any context
state — an internal formatting failure of the native result list is
caught and the placeholder `<error printing list item>` is substituted;
`summarize_arg_error` never raises provided formatting the current
argument does not itself raise (and trivially when no argument is
current), but it has no such guard, so a raising `repr` propagates. -/
theorem C8_summarizer_behavior (inv : Invocation) :
    (PyM.ok? inv.summarize_return_error = true)
  ∧ (∀ l, inv.current_return_list = some l → l.reprFails = true →
      inv.summarize_return_error
        = .ok ("<error printing list item> with description " ++ jvalFStr inv.current_desc))
  ∧ (inv.current_arg = none → inv.summarize_arg_error = .ok "")
  ∧ (∀ arg s, inv.current_arg = some arg → pyRepr arg = .ok s →
      PyM.ok? inv.summarize_arg_error = true) := by
  refine ⟨?_, ?_, ?_, ?_⟩
  · cases hl : inv.current_return_list with
    | none =>
      simp [Invocation.summarize_return_error, hl, PyM.ok?]
      try rfl
    | some l =>
      cases hv : vmListStrE l <;>
        simp [Invocation.summarize_return_error, hl, hv, PyM.ok?] <;> try rfl
  · intro l hl hrf
    simp [Invocation.summarize_return_error, hl, vmListStrE, hrf]
    try rfl
  · intro hnone
    simp [Invocation.summarize_arg_error, hnone]
    try rfl
  · intro arg s ha hrepr
    cases arg <;> simp [Invocation.summarize_arg_error, ha, hrepr, PyM.ok?] <;> try rfl

/-- C8 witness: a context whose native result list fails to format (the
placeholder is substituted) and whose current argument is an integer. -/
theorem C8_witness_instances :
    PyM.ok? (Invocation.summarize_return_error c8Inv) = true
  ∧ Invocation.summarize_return_error c8Inv
      = .ok ("<error printing list item> with description " ++ jvalFStr JVal.null)
  ∧ PyM.ok? (Invocation.summarize_arg_error c8Inv) = true := by
  have h := C8_summarizer_behavior c8Inv
  exact ⟨h.1, h.2.1 { items := [], reprFails := true } rfl rfl,
    h.2.2.2 (.int 5) "5" rfl rfl⟩

/-- C9: when a positional value and a keyword argument target the same
named position, the merge succeeds (no duplicate-argument error, unlike
Python's own calling convention) and the keyword value silently
overwrites the positional one, leaving every other position unchanged. -/
theorem C9_keyword_overwrites_positional (fi : FunctionInvoker) (args : List PyValue)
    (name : String) (i : Nat) (v : PyValue)
    (hl : fi.named_arg_indices.find? (fun p => p.1 == name) = some (name, i))
    (hi : i < args.length) :
    ∃ merged, mergeKeywordArgs fi args [(name, v)] = .ok merged
      ∧ merged[i]? = some v
      ∧ ∀ j, j < args.length → j ≠ i → merged[j]? = args[j]? := by
  unfold mergeKeywordArgs
  rw [if_neg (by simp)]
  set base := if (fi.max_named_arg_index - (args.length : Int) + 1) > 0 then
      args ++ List.replicate (fi.max_named_arg_index - (args.length : Int) + 1).toNat
        PyValue.missingArg
    else args with hbase
  have hpref : ∀ j, j < args.length → base[j]? = args[j]? := by
    intro j hj
    rw [hbase]
    split
    · exact List.getElem?_append_left hj
    · rfl
  have hlen : args.length ≤ base.length := by
    rw [hbase]; split
    · simp
    · exact le_refl _
  refine ⟨base.set i v, ?_, ?_, ?_⟩
  · simp only [kwAssignLoop, hl]
    rfl
  · exact List.getElem?_set_eq_of_lt v (lt_of_lt_of_le hi hlen)
  · intro j hj hne
    rw [List.getElem?_set_ne (fun e => hne e.symm)]
    exact hpref j hj

/-- C9 witness: positional `(1, 2)` with keyword `y=9` on a binding whose
named positions are `x ↦ 0`, `y ↦ 1`. -/
theorem C9_witness_overwrite :
    ∃ merged, mergeKeywordArgs c9Invoker [.int 1, .int 2] [("y", .int 9)] = .ok merged
      ∧ merged[1]? = some (.int 9)
      ∧ ∀ j, j < ([PyValue.int 1, PyValue.int 2] : List PyValue).length → j ≠ 1 →
          merged[j]? = ([PyValue.int 1, PyValue.int 2] : List PyValue)[j]? :=
  C9_keyword_overwrites_positional c9Invoker [.int 1, .int 2] "y" 1 (.int 9) rfl
    (by decide)

/-- C10: the heap-level argument encoder never mutates caller-supplied
arrays: on any successful encode, every pre-existing heap cell (in
particular the caller's array) is unchanged; the reference pushed to the
VM is either the caller's own array (no cast needed) or a freshly
allocated cell holding the cast copy. -/
theorem C10_no_caller_mutation (inv : Invocation) (h : NpHeap) (t : VmVariantList) (xid : Nat)
    (desc : JVal) (a : NdArray) (h2 : NpHeap) (t2 : VmVariantList) (pid : Nat)
    (hx : h.get xid = some a)
    (hres : ndarray_to_vm_st inv h t xid desc = .ok (h2, t2, pid)) :
    (∀ j, j < h.cells.length → h2.get j = h.get j)
  ∧ h2.get xid = some a
  ∧ (pid = xid ∨ h.cells.length ≤ pid) := by
  have hxlt : xid < h.cells.length := by
    by_contra hge
    rw [NpHeap.get, List.getElem?_eq_none (Nat.le_of_not_lt hge)] at hx
    exact absurd hx (by simp)
  have key : (h2 = h ∧ pid = xid) ∨
      (∃ arr, h2 = { cells := h.cells ++ [arr] } ∧ pid = h.cells.length) := by
    unfold ndarray_to_vm_st at hres
    rw [hx] at hres
    simp only [pym_bind_ok, pure_bind] at hres
    split at hres
    · -- desc = null
      simp only [pure_bind] at hres
      cases hlk : lookupHalElementType a.dtype with
      | some et =>
        rw [hlk] at hres
        simp only [pym_pure_eq_ok, Except.ok.injEq, Prod.mk.injEq] at hres
        exact Or.inl ⟨hres.1.symm, hres.2.2.symm⟩
      | none =>
        rw [hlk] at hres
        exact absurd hres (raise_argument_error_not_ok inv _ _)
    · -- desc non-null
      cases hq0 : pySubscriptIdx desc 0 with
      | error e =>
        rw [hq0] at hres
        simp [pym_bind_err] at hres
      | ok desc_type =>
        rw [hq0] at hres
        simp only [pym_bind_ok] at hres
        split at hres
        · simp only [bind_assoc] at hres
          exact absurd hres (raise_argument_error_bind_not_ok inv _ _ _)
        · cases hq1 : pySubscriptIdx desc 1 with
          | error e =>
            rw [hq1] at hres
            simp [pym_bind_err] at hres
          | ok dtype_str =>
            rw [hq1] at hres
            simp only [pym_bind_ok] at hres
            cases hq2 : lookupAbiDtype inv dtype_str with
            | error e =>
              rw [hq2] at hres
              simp [pym_bind_err] at hres
            | ok dtype =>
              rw [hq2] at hres
              simp only [pym_bind_ok] at hres
              cases hq3 : pySubscriptIdx desc 2 with
              | error e =>
                rw [hq3] at hres
                simp [pym_bind_err] at hres
              | ok rank =>
                rw [hq3] at hres
                simp only [pym_bind_ok] at hres
                by_cases hdt : (dtype != a.dtype) = true
                · simp only [hdt, if_true] at hres
                  cases rank with
                  | str sr =>
                    simp only [Bool.not_false, Bool.or_true, eq_self_iff_true, if_true,
                      bind_assoc] at hres
                    exact absurd hres (raise_argument_error_bind_not_ok inv _ _ _)
                  | null =>
                    simp only [Bool.not_false, Bool.or_true, eq_self_iff_true, if_true,
                      bind_assoc] at hres
                    exact absurd hres (raise_argument_error_bind_not_ok inv _ _ _)
                  | arr xr =>
                    simp only [Bool.not_false, Bool.or_true, eq_self_iff_true, if_true,
                      bind_assoc] at hres
                    exact absurd hres (raise_argument_error_bind_not_ok inv _ _ _)
                  | obj or2 =>
                    simp only [Bool.not_false, Bool.or_true, eq_self_iff_true, if_true,
                      bind_assoc] at hres
                    exact absurd hres (raise_argument_error_bind_not_ok inv _ _ _)
                  | int r =>
                    by_cases hrk : (((descSlice desc 3).length != (a.astype dtype).shape.length ||
                        !(r == ((a.astype dtype).shape.length : Int))) = true)
                    · simp only [hrk, if_true, bind_assoc] at hres
                      exact absurd hres (raise_argument_error_bind_not_ok inv _ _ _)
                    · simp only [eq_false_of_ne_true hrk, Bool.false_eq_true, if_false] at hres
                      by_cases hdm : dimsMismatch (descSlice desc 3) (a.astype dtype).shape = true
                      · simp only [hdm, if_true, bind_assoc] at hres
                        exact absurd hres (raise_argument_error_bind_not_ok inv _ _ _)
                      · simp only [eq_false_of_ne_true hdm, Bool.false_eq_true, if_false, pure_bind] at hres
                        cases hlk2 : lookupHalElementType dtype with
                        | some et =>
                          rw [show (a.astype dtype).dtype = dtype from rfl, hlk2] at hres
                          simp only [pym_pure_eq_ok, Except.ok.injEq, Prod.mk.injEq] at hres
                          exact Or.inr ⟨a.astype dtype, hres.1.symm, hres.2.2.symm⟩
                        | none =>
                          rw [show (a.astype dtype).dtype = dtype from rfl, hlk2] at hres
                          exact absurd hres (raise_argument_error_not_ok inv _ _)
                · have hdt2 : (dtype != a.dtype) = false := by simpa using hdt
                  simp only [hdt2, Bool.false_eq_true, if_false] at hres
                  cases rank with
                  | str sr =>
                    simp only [Bool.not_false, Bool.or_true, eq_self_iff_true, if_true,
                      bind_assoc] at hres
                    exact absurd hres (raise_argument_error_bind_not_ok inv _ _ _)
                  | null =>
                    simp only [Bool.not_false, Bool.or_true, eq_self_iff_true, if_true,
                      bind_assoc] at hres
                    exact absurd hres (raise_argument_error_bind_not_ok inv _ _ _)
                  | arr xr =>
                    simp only [Bool.not_false, Bool.or_true, eq_self_iff_true, if_true,
                      bind_assoc] at hres
                    exact absurd hres (raise_argument_error_bind_not_ok inv _ _ _)
                  | obj or2 =>
                    simp only [Bool.not_false, Bool.or_true, eq_self_iff_true, if_true,
                      bind_assoc] at hres
                    exact absurd hres (raise_argument_error_bind_not_ok inv _ _ _)
                  | int r =>
                    by_cases hrk : (((descSlice desc 3).length != a.shape.length ||
                        !(r == (a.shape.length : Int))) = true)
                    · simp only [hrk, if_true, bind_assoc] at hres
                      exact absurd hres (raise_argument_error_bind_not_ok inv _ _ _)
                    · simp only [eq_false_of_ne_true hrk, Bool.false_eq_true, if_false] at hres
                      by_cases hdm : dimsMismatch (descSlice desc 3) a.shape = true
                      · simp only [hdm, if_true, bind_assoc] at hres
                        exact absurd hres (raise_argument_error_bind_not_ok inv _ _ _)
                      · simp only [eq_false_of_ne_true hdm, Bool.false_eq_true, if_false, pure_bind] at hres
                        cases hlk2 : lookupHalElementType a.dtype with
                        | some et =>
                          rw [hlk2] at hres
                          simp only [pym_pure_eq_ok, Except.ok.injEq, Prod.mk.injEq] at hres
                          exact Or.inl ⟨hres.1.symm, hres.2.2.symm⟩
                        | none =>
                          rw [hlk2] at hres
                          exact absurd hres (raise_argument_error_not_ok inv _ _)
  rcases key with ⟨rfl, rfl⟩ | ⟨arr, rfl, rfl⟩
  · exact ⟨fun j hj => rfl, hx, Or.inl rfl⟩
  · refine ⟨?_, ?_, Or.inr (le_refl _)⟩
    · intro j hj
      simp [NpHeap.get, List.getElem?_append_left hj]
    · rw [NpHeap.get]
      simp only [List.getElem?_append_left hxlt]
      exact hx

/-- C10 witness: a rank-0 `int32` array encoded against a rank-0 `f32`
descriptor — the cast allocates a fresh cell (`pid = 1`), the caller's
cell 0 still holds the original array. -/
theorem C10_witness_cast_allocates :
    (∀ j, j < c10Heap.cells.length → c10HeapOut.get j = c10Heap.get j)
  ∧ c10HeapOut.get 0 = some c10Arr
  ∧ (1 = 0 ∨ c10Heap.cells.length ≤ 1) :=
  C10_no_caller_mutation (Invocation.new 0) c10Heap VmVariantList.new 0 c10Desc c10Arr
    c10HeapOut c10ListOut 1 rfl rfl
